import Mathlib

/-
Verification of the RecurPost++ posting orchestration engine.

Shallow embedding of:
  - src/scheduler/main.py  (cadence calculation, content selection, variant
    request, publish dispatch, per-account scheduling loop)
  - src/api/main.py        (account creation / listing endpoints)
  - src/tools/variant-api/main.py (transformation-profile selection)

Modelling conventions:
  - A Python value that is either a string or None is an `Option String`
    (`none` = Python None).  Python truthiness of such a value: `none` and
    `some ""` are falsy.
  - JSON object payloads are association lists `List (String × Option String)`
    (a value of `none` serialises to JSON null).
  - Network fetches, random draws and collaborator calls are supplied by an
    explicit environment (`Env`) of oracles; the observable behaviour of the
    scheduling loop is a trace of `Event`s plus a flag recording whether an
    uncaught exception escaped the per-account cycle.
  - Wall-clock instants are microseconds since the local epoch midnight
    (a `datetime` compares at microsecond resolution); days are uniform
    86400-second spans (the naive local clock of `datetime.now()`).
-/

namespace RP

/-- Python truthiness of a str-or-None value: None and "" are falsy. -/
def pyTruthy : Option String → Bool
  | none => false
  | some s => !(s == "")

/-- Python `a or b` where `a` is a str and `b` a str-or-None value
(as in `caption or item.get("title", "")` at src/scheduler/main.py:115). -/
def pyOrStr (a : String) (b : Option String) : Option String :=
  if a = "" then b else some a

/- ---------------------------------------------------------------------
   src/api/main.py : account endpoints (lines 41-45, 114-124)
   --------------------------------------------------------------------- -/

/-- Request body of POST /accounts (pydantic model `AccountCreate`,
src/api/main.py:41-45). -/
structure AccountCreate where
  network : String
  external_user_id : String
  handle : String
  access_token : Option String
deriving DecidableEq, Repr

/-- A stored account record (the dict appended at src/api/main.py:117). -/
structure AccountRec where
  id : String
  network : String
  external_user_id : String
  handle : String
  access_token : Option String
deriving DecidableEq, Repr

/-- src/api/main.py:114-119 `create_account`: appends the full record
(including access_token) to the store, but the returned JSON body has only
id, network, external_user_id and handle.  `newId` stands for the
`uuid4().hex` draw of `_generate_id`. -/
def create_account (accounts : List AccountRec) (newId : String)
    (acc : AccountCreate) : List AccountRec × List (String × Option String) :=
  let stored : AccountRec :=
    { id := newId, network := acc.network,
      external_user_id := acc.external_user_id, handle := acc.handle,
      access_token := acc.access_token }
  (accounts ++ [stored],
   [("id", some newId), ("network", some acc.network),
    ("external_user_id", some acc.external_user_id),
    ("handle", some acc.handle)])

/-- src/api/main.py:122-124 `list_accounts`: returns the stored dicts as-is,
access_token included. -/
def list_accounts (accounts : List AccountRec) :
    List (List (String × Option String)) :=
  accounts.map (fun a =>
    [("id", some a.id), ("network", some a.network),
     ("external_user_id", some a.external_user_id),
     ("handle", some a.handle), ("access_token", a.access_token)])

/- ---------------------------------------------------------------------
   src/tools/variant-api/main.py : transformation-profile selection
   --------------------------------------------------------------------- -/

/-- The fixed list of filter "spices", src/tools/variant-api/main.py:48-54. -/
def spices : List String :=
  ["eq=brightness=0.01:contrast=1.02",
   "unsharp=5:5:0.5",
   "gblur=sigma=0.3",
   "hue=h=2:s=1",
   ""]

/-- src/tools/variant-api/main.py:55
`idx = hash(seed) % len(spices) if seed else 0` inside `run_ffmpeg`.
`pyhash` is the process's string-hash function (Python's `hash` is fixed for
the lifetime of one interpreter process but salted across processes); Python's
`%` with a positive modulus agrees with `Int.emod`. -/
def run_ffmpeg_profile (pyhash : String → Int) (seed : Option String) : Nat :=
  match seed with
  | none => 0
  | some s => if s = "" then 0 else ((pyhash s) % (spices.length : Int)).toNat

/-- src/tools/variant-api/main.py:85-90 `create_variant`: the seed actually
used is `req.seed or uuid.uuid4().hex`, so a missing OR empty request seed is
replaced by the fresh per-call uuid `freshUuid`; `run_ffmpeg` then selects the
profile from that seed.  The request's `platform` field does not influence the
selection. -/
def create_variant_profile (pyhash : String → Int) (_platform : String)
    (reqSeed : Option String) (freshUuid : String) : Nat :=
  let seed : String :=
    match reqSeed with
    | none => freshUuid
    | some s => if s = "" then freshUuid else s
  run_ffmpeg_profile pyhash (some seed)

/- ---------------------------------------------------------------------
   src/scheduler/main.py:102-129 : publish dispatch
   --------------------------------------------------------------------- -/

/-- Default base URL of the Instagram adapter (src/scheduler/main.py:10;
overridable through the environment, the default is used here). -/
def IG_PUBLISH_BASE : String := "http://ig-publisher:8000"

/-- Default base URL of the TikTok adapter (src/scheduler/main.py:11). -/
def TT_PUBLISH_BASE : String := "http://tt-publisher:8000"

/-- Default base URL of the YouTube adapter (src/scheduler/main.py:12). -/
def YT_PUBLISH_BASE : String := "http://yt-publisher:8000"

/-- src/scheduler/main.py:102-129: the if/elif chain over `acc_network` that
builds the publish payload and target URL.  Returns `none` for an unsupported
network (the `else` branch logs and `continue`s).  `variant_url` is the value
of `vr.json().get("cdn_url")` (possibly JSON null), `caption` the post-fallback
caption string, `item_title` the value of `item.get("title", "")`. -/
def publish_dispatch (acc_network : Option String) (external_user_id : String)
    (acc_token : String) (variant_url : Option String) (caption : String)
    (item_title : Option String) :
    Option (String × List (String × Option String)) :=
  if acc_network = some "instagram" then
    some (IG_PUBLISH_BASE ++ "/publish",
      [("ig_user_id", some external_user_id),
       ("video_url", variant_url),
       ("caption", some caption),
       ("access_token", some acc_token)])
  else if acc_network = some "tiktok" then
    some (TT_PUBLISH_BASE ++ "/publish",
      [("user_access_token", some acc_token),
       ("video_url", variant_url),
       ("title", pyOrStr caption item_title)])
  else if acc_network = some "youtube" then
    some (YT_PUBLISH_BASE ++ "/publish",
      [("oauth_access_token", some acc_token),
       ("file_url", variant_url),
       ("title", pyOrStr caption item_title),
       ("description", pyOrStr caption item_title),
       ("privacy", some "public")])
  else
    none

/- ---------------------------------------------------------------------
   src/scheduler/main.py:70 : `hour, minute = map(int, tstr.split(":"))`
   --------------------------------------------------------------------- -/

/-- Python `str.split(":")` on the character list: every colon is a
separator, empty parts are kept. -/
def splitColonAux : List Char → List Char → List (List Char)
  | [], acc => [acc.reverse]
  | c :: cs, acc =>
    if c = ':' then acc.reverse :: splitColonAux cs []
    else splitColonAux cs (c :: acc)

/-- The ASCII whitespace characters stripped by Python `int()` before
parsing its argument. -/
def isPySpace (c : Char) : Bool :=
  c = ' ' ∨ c = '\t' ∨ c = '\n' ∨ c = '\r' ∨ c = '\x0b' ∨ c = '\x0c'

/-- Value of a decimal digit, `none` on any other character. -/
def digitVal : Char → Option Nat
  | c => if '0' ≤ c ∧ c ≤ '9' then some (c.toNat - '0'.toNat) else none

/-- Accumulate a non-empty run of decimal digits into a number. -/
def digitsToNatAux : List Char → Nat → Option Nat
  | [], acc => some acc
  | c :: cs, acc =>
    match digitVal c with
    | some d => digitsToNatAux cs (acc * 10 + d)
    | none => none

/-- Parse a non-empty all-digit character list. -/
def digitsToNat : List Char → Option Nat
  | [] => none
  | cs => digitsToNatAux cs 0

/-- Python `int()` on a string: strip surrounding whitespace, optional single
sign, then a non-empty digit run; `none` models the ValueError branch.
(Underscore digit grouping and non-ASCII digits are not modelled; every
string the claims quantify over is plain ASCII.) -/
def pyInt (cs : List Char) : Option Int :=
  let t := ((cs.dropWhile isPySpace).reverse.dropWhile isPySpace).reverse
  match t with
  | '+' :: ds => (digitsToNat ds).map Int.ofNat
  | '-' :: ds => (digitsToNat ds).map (fun n => -(n : Int))
  | ds => (digitsToNat ds).map Int.ofNat

/-- src/scheduler/main.py:69-73: `hour, minute = map(int, tstr.split(":"))`
inside try/except.  `none` models any exception from splitting/unpacking or
`int()` (the `except` branch logs and `continue`s); the parsed pair is NOT
yet validated as a time of day. -/
def pyParseTime (s : String) : Option (Int × Int) :=
  match splitColonAux s.data [] with
  | [a, b] =>
    match pyInt a, pyInt b with
    | some h, some m => some (h, m)
    | _, _ => none
  | _ => none

/- ---------------------------------------------------------------------
   src/scheduler/main.py:74-81 : cadence calculation
   --------------------------------------------------------------------- -/

/-- Microseconds in one (uniform, naive local clock) day. -/
def usPerDay : Nat := 86400000000

/-- src/scheduler/main.py:75
`datetime.now().replace(hour=hour, minute=minute, second=0, microsecond=0)`:
today's date (day of `now`) at h:m:00.000000, in microseconds since the
local epoch midnight. -/
def baseInstant (now : Nat) (h m : Nat) : Nat :=
  (now / usPerDay) * usPerDay + (h * 3600 + m * 60) * 1000000

/-- src/scheduler/main.py:77-78: `if scheduled_time < datetime.now():
scheduled_time = scheduled_time + timedelta(days=1)` — the pre-jitter fire
instant (both `datetime.now()` reads are the single fixed `now`). -/
def preJitter (now : Nat) (h m : Nat) : Nat :=
  if baseInstant now h m < now then baseInstant now h m + usPerDay
  else baseInstant now h m

/-- src/scheduler/main.py:80-81: add the drawn jitter `j` minutes
(`random.randint(-JITTER_MINUTES, JITTER_MINUTES)`). -/
def nextFire (now : Nat) (h m : Nat) (j : Int) : Int :=
  (preJitter now h m : Int) + j * 60000000

/- ---------------------------------------------------------------------
   src/scheduler/main.py:39-135 : the per-account scheduling cycle
   --------------------------------------------------------------------- -/

/-- A schedule record as served by GET /schedules/(account_id)
(src/api/main.py:133). -/
structure Schedule where
  id : String
  account_id : String
  post_times : List String
deriving DecidableEq, Repr

/-- A library record as served by GET /libraries (src/api/main.py:72). -/
structure Library where
  id : String
  name : String
deriving DecidableEq, Repr

/-- A library item record (src/api/main.py:88); `title` may be JSON null. -/
structure Item where
  id : String
  library_id : String
  master_url : String
  title : Option String
deriving DecidableEq, Repr

/-- A caption record (src/api/main.py:104). -/
structure Caption where
  id : String
  library_item_id : String
  platform : String
  body : String
deriving DecidableEq, Repr

/-- The account dict consumed by `schedule_for_account`
(src/scheduler/main.py:39-42): `network` and `access_token` are read with
`.get` (may be absent = `none`), `id` and `external_user_id` with `[]`
(always present on records created by the API). -/
structure Account where
  id : String
  network : Option String
  external_user_id : String
  access_token : Option String
deriving DecidableEq, Repr

/-- The oracles feeding one run of `schedule_for_account`: results of the
HTTP fetches (an error and an empty result are both `[]`, per `fetch_json`,
src/scheduler/main.py:21-29) and, per slot index, the random draws and the
outcome of the variant call.  `variantOf i = none` models an exception from
the POST /variant call (connection failure or `raise_for_status`);
`variantOf i = some u` models a 2xx reply whose `.json().get("cdn_url")`
is `u`. -/
structure Env where
  schedulesOf : String → List Schedule
  libraries : List Library
  itemsOf : String → List Item
  captionsOf : String → List Caption
  itemChoice : Nat → Nat
  captionChoice : Nat → Nat
  variantOf : Nat → Option (Option String)

/-- Observable actions of one scheduling cycle: the HTTP requests issued to
the inventory service, the variant service and the publish adapters. -/
inductive Event where
  | fetchSchedules (accountId : String)
  | fetchLibraries
  | fetchItems (libraryId : String)
  | fetchCaptions (itemId : String)
  | variantRequest (file_url : String) (platform : Option String)
  | publish (url : String) (payload : List (String × Option String))
deriving DecidableEq, Repr

/-- src/scheduler/main.py:32-36 `pick_random_caption`: filter the captions to
the account's platform; `none` if the filter is empty, otherwise the body of
the caption chosen by `random.choice` (the draw is the oracle index
`choice`, reduced mod the filtered length). -/
def pick_random_caption (captions : List Caption) (platform : Option String)
    (choice : Nat) : Option String :=
  let filtered := captions.filter (fun c => some c.platform == platform)
  if filtered.isEmpty then none
  else (filtered.get? (choice % filtered.length)).map Caption.body

/-- One iteration of the `for tstr in times_strs` loop
(src/scheduler/main.py:67-135) at slot index `idx`, returning the events it
emits and whether an uncaught exception escaped (aborting the cycle):
  - a parse failure (line 69-73) is caught: skip the slot, no events;
  - `datetime.now().replace(hour=hour, minute=minute, ...)` (line 75) raises
    ValueError OUTSIDE the try when hour ∉ [0,23] or minute ∉ [0,59] —
    that exception is uncaught, so the flag is `true`;
  - the scheduled-time/jitter/sleep steps (lines 75-86) only delay execution
    and are otherwise unobservable (modelled separately by `nextFire`);
  - `random.choice(items)` (line 88) raises on an empty list (uncaught;
    unreachable from `schedule_for_account`, which checked `items`);
  - a variant failure (lines 95-101) is caught: skip the slot;
  - an unsupported network (lines 127-129) is logged: skip the slot;
  - the publish POST (lines 130-135) never raises past its try/except and
    its response is not inspected. -/
def processSlot (env : Env) (acct : Account) (tok : String)
    (items : List Item) (idx : Nat) (tstr : String) : List Event × Bool :=
  match pyParseTime tstr with
  | none => ([], false)
  | some (h, m) =>
    if h < 0 ∨ 23 < h ∨ m < 0 ∨ 59 < m then ([], true)
    else
      match items.get? (env.itemChoice idx % items.length) with
      | none => ([], true)
      | some item =>
        let capEv := Event.fetchCaptions item.id
        let caption :=
          (pick_random_caption (env.captionsOf item.id) acct.network
            (env.captionChoice idx)).getD ""
        let varEv := Event.variantRequest item.master_url acct.network
        match env.variantOf idx with
        | none => ([capEv, varEv], false)
        | some variant_url =>
          match publish_dispatch acct.network acct.external_user_id tok
              variant_url caption item.title with
          | none => ([capEv, varEv], false)
          | some (url, payload) =>
            ([capEv, varEv, Event.publish url payload], false)

/-- The slot loop: slots are processed in listed order; a `true` flag from a
slot (uncaught exception) aborts the remaining slots of the cycle. -/
def runSlots (env : Env) (acct : Account) (tok : String) (items : List Item) :
    Nat → List String → List Event × Bool
  | _, [] => ([], false)
  | idx, t :: ts =>
    match processSlot env acct tok items idx t with
    | (evs, true) => (evs, true)
    | (evs, false) =>
      match runSlots env acct tok items (idx + 1) ts with
      | (rest, c) => (evs ++ rest, c)

/-- src/scheduler/main.py:52-54: `times_strs = []` then
`times_strs.extend(sched.get("post_times", []))` over the fetched schedules
(a left-to-right accumulating loop). -/
def times_strs_loop : List Schedule → List String → List String
  | [], acc => acc
  | s :: rest, acc => times_strs_loop rest (acc ++ s.post_times)

/-- src/scheduler/main.py:52-55: the effective slot list —
all schedules' post_times accumulated in listed order, then
`times_strs[:POSTS_PER_DAY]`. -/
def effective_times (scheds : List Schedule) (ppd : Nat) : List String :=
  (times_strs_loop scheds []).take ppd

/-- src/scheduler/main.py:39-135 `schedule_for_account`: one scheduling cycle
for one account, under oracle environment `env` and configured
POSTS_PER_DAY `ppd`.  Returns the event trace and whether an uncaught
exception escaped the function (to be caught per-account by `main_loop`). -/
def schedule_for_account (env : Env) (acct : Account) (ppd : Nat) :
    List Event × Bool :=
  match acct.access_token with
  | none => ([], false)
  | some tok =>
    if tok = "" then ([], false)
    else
      match env.schedulesOf acct.id with
      | [] => ([Event.fetchSchedules acct.id], false)
      | s :: ss =>
        let times := effective_times (s :: ss) ppd
        match env.libraries with
        | [] => ([Event.fetchSchedules acct.id, Event.fetchLibraries], false)
        | lib :: _ =>
          match env.itemsOf lib.id with
          | [] => ([Event.fetchSchedules acct.id, Event.fetchLibraries,
                    Event.fetchItems lib.id], false)
          | i :: is =>
            match runSlots env acct tok (i :: is) 0 times with
            | (evs, c) =>
              ([Event.fetchSchedules acct.id, Event.fetchLibraries,
                Event.fetchItems lib.id] ++ evs, c)

/-- The publish events of a trace. -/
def publishes (evs : List Event) : List Event :=
  evs.filter (fun e => match e with
    | Event.publish _ _ => true
    | _ => false)

/-- The source URLs sent to the variant service in a trace. -/
def variantSources : List Event → List String
  | [] => []
  | Event.variantRequest u _ :: evs => u :: variantSources evs
  | _ :: evs => variantSources evs

/- ---------------------------------------------------------------------
   Concrete scenario data (used in closed instances below)
   --------------------------------------------------------------------- -/

/-- A concrete library item. -/
def itemOK : Item := ⟨"i1", "l1", "http://cdn/master.mp4", some "Title"⟩

/-- A healthy environment: one schedule with two valid slots, one library,
one item, one instagram caption, all variant calls succeed. -/
def envOK : Env :=
  { schedulesOf := fun _ => [⟨"s1", "a1", ["08:00", "12:00"]⟩],
    libraries := [⟨"l1", "Main"⟩],
    itemsOf := fun _ => [itemOK],
    captionsOf := fun _ => [⟨"c1", "i1", "instagram", "hello"⟩],
    itemChoice := fun _ => 0,
    captionChoice := fun _ => 0,
    variantOf := fun _ => some (some "http://cdn/variant.mp4") }

/-- `envOK` with the variant call failing on every slot. -/
def envFail : Env := { envOK with variantOf := fun _ => none }

/-- `envOK` with slot list ["10:99", "08:00"]: the first slot's parts parse
as integers but 99 is not a valid minute; the second slot is valid. -/
def envC3 : Env :=
  { envOK with schedulesOf := fun _ => [⟨"s1", "a1", ["10:99", "08:00"]⟩] }

/-- A concrete instagram account with a non-empty access token. -/
def acctIG : Account := ⟨"a1", some "instagram", "u1", some "tok"⟩

/-- A concrete stand-in for the process's string-hash function:
sum of the character codes. -/
def hashSum (s : String) : Int :=
  ((s.data.foldl (fun a c => a + c.toNat) 0 : Nat) : Int)

/- ---------------------------------------------------------------------
   Helper lemmas
   --------------------------------------------------------------------- -/

/-- Python `caption or title` over a present (non-null) title. -/
theorem pyOrStr_some (a t : String) :
    pyOrStr a (some t) = some (if a = "" then t else a) := by
  unfold pyOrStr; split <;> rfl

/-- The `times_strs.extend` loop accumulates the schedules' post_times in
listed order after the accumulator. -/
theorem times_strs_loop_eq (scheds : List Schedule) (acc : List String) :
    times_strs_loop scheds acc
      = acc ++ (scheds.map Schedule.post_times).flatten := by
  induction scheds generalizing acc with
  | nil => simp [times_strs_loop]
  | cons s rest ih => simp [times_strs_loop, ih]

/-- `variantSources` distributes over trace concatenation. -/
theorem variantSources_append (a b : List Event) :
    variantSources (a ++ b) = variantSources a ++ variantSources b := by
  induction a with
  | nil => rfl
  | cons e a ih => cases e <;> simp [variantSources, ih]

/-- Every variant request emitted by one slot carries the master_url of one
of the fetched items. -/
theorem variantSources_processSlot (env : Env) (acct : Account) (tok : String)
    (items : List Item) (idx : Nat) (t : String) :
    ∀ u ∈ variantSources (processSlot env acct tok items idx t).1,
      u ∈ items.map Item.master_url := by
  unfold processSlot
  split
  · simp [variantSources]
  · split
    · simp [variantSources]
    · split
      · simp [variantSources]
      · rename_i item heq
        have hmem : item ∈ items := List.get?_mem heq
        split
        · intro u hu
          simp [variantSources] at hu
          subst hu
          exact List.mem_map_of_mem Item.master_url hmem
        · dsimp only
          split
          · intro u hu
            simp [variantSources] at hu
            subst hu
            exact List.mem_map_of_mem Item.master_url hmem
          · intro u hu
            simp [variantSources] at hu
            subst hu
            exact List.mem_map_of_mem Item.master_url hmem

/-- Every variant request emitted by the slot loop carries the master_url of
one of the fetched items. -/
theorem variantSources_runSlots (env : Env) (acct : Account) (tok : String)
    (items : List Item) (ts : List String) :
    ∀ (idx : Nat),
      ∀ u ∈ variantSources (runSlots env acct tok items idx ts).1,
        u ∈ items.map Item.master_url := by
  induction ts with
  | nil => intro idx u hu; simp [runSlots, variantSources] at hu
  | cons t ts ih =>
    intro idx u hu
    have hslot := variantSources_processSlot env acct tok items idx t
    rcases hps : processSlot env acct tok items idx t with ⟨evs, c⟩
    rw [hps] at hslot
    rcases hrs : runSlots env acct tok items (idx + 1) ts with ⟨rest, c2⟩
    have hih := ih (idx + 1)
    rw [hrs] at hih
    unfold runSlots at hu
    rw [hps, hrs] at hu
    cases c with
    | true => exact hslot u hu
    | false =>
      simp only [variantSources_append, List.mem_append] at hu
      rcases hu with hu | hu
      · exact hslot u hu
      · exact hih u hu

/- ---------------------------------------------------------------------
   Claim theorems
   --------------------------------------------------------------------- -/

/-- Claim C1: for each supported network the dispatcher builds exactly the
payload of the §4.4 table — instagram forwards external_user_id, the variant
URL, the caption (empty allowed, no fallback) and the access token; tiktok
forwards the access token, the variant URL and title=caption; youtube
forwards the access token, the variant URL, title, description and
privacy=public — where the title/description fields equal the item title
exactly when the caption body is empty and the caption body otherwise; any
other network value is rejected (no payload). -/
theorem c1_publish_payloads (ext tok vurl cap title : String)
    (n : Option String) (h1 : n ≠ some "instagram") (h2 : n ≠ some "tiktok")
    (h3 : n ≠ some "youtube") :
    publish_dispatch (some "instagram") ext tok (some vurl) cap (some title)
      = some (IG_PUBLISH_BASE ++ "/publish",
          [("ig_user_id", some ext), ("video_url", some vurl),
           ("caption", some cap), ("access_token", some tok)])
    ∧ publish_dispatch (some "tiktok") ext tok (some vurl) cap (some title)
      = some (TT_PUBLISH_BASE ++ "/publish",
          [("user_access_token", some tok), ("video_url", some vurl),
           ("title", some (if cap = "" then title else cap))])
    ∧ publish_dispatch (some "youtube") ext tok (some vurl) cap (some title)
      = some (YT_PUBLISH_BASE ++ "/publish",
          [("oauth_access_token", some tok), ("file_url", some vurl),
           ("title", some (if cap = "" then title else cap)),
           ("description", some (if cap = "" then title else cap)),
           ("privacy", some "public")])
    ∧ publish_dispatch n ext tok (some vurl) cap (some title) = none := by
  refine ⟨by simp [publish_dispatch], ?_, ?_, ?_⟩
  · simp [publish_dispatch, pyOrStr_some]
  · simp [publish_dispatch, pyOrStr_some]
  · simp [publish_dispatch, h1, h2, h3]

/-- Claim C1 witness: the payloads at concrete inputs with an empty caption
(titles fall back to the item title) and rejection of network "myspace". -/
theorem c1_publish_payloads_witness :
    publish_dispatch (some "instagram") "u1" "tok" (some "http://cdn/v.mp4")
        "" (some "Title")
      = some (IG_PUBLISH_BASE ++ "/publish",
          [("ig_user_id", some "u1"), ("video_url", some "http://cdn/v.mp4"),
           ("caption", some ""), ("access_token", some "tok")])
    ∧ publish_dispatch (some "tiktok") "u1" "tok" (some "http://cdn/v.mp4")
        "" (some "Title")
      = some (TT_PUBLISH_BASE ++ "/publish",
          [("user_access_token", some "tok"),
           ("video_url", some "http://cdn/v.mp4"),
           ("title", some "Title")])
    ∧ publish_dispatch (some "youtube") "u1" "tok" (some "http://cdn/v.mp4")
        "" (some "Title")
      = some (YT_PUBLISH_BASE ++ "/publish",
          [("oauth_access_token", some "tok"),
           ("file_url", some "http://cdn/v.mp4"),
           ("title", some "Title"), ("description", some "Title"),
           ("privacy", some "public")])
    ∧ publish_dispatch (some "myspace") "u1" "tok" (some "http://cdn/v.mp4")
        "" (some "Title") = none :=
  c1_publish_payloads "u1" "tok" "http://cdn/v.mp4" "" "Title"
    (some "myspace") (by decide) (by decide) (by decide)

/-- Claim C2: for every valid HH:MM string (fixed now, fixed jitter draw j
with -J ≤ j ≤ J), the fire instant is ≥ now - J minutes; removing the jitter
offset leaves an instant whose time-of-day is exactly the parsed H:M and
whose date is today or tomorrow relative to now, never further. -/
theorem c2_next_fire_bounds (s : String) (h m : Int) (now : Nat) (j J : Int)
    (_hp : pyParseTime s = some (h, m))
    (h0 : 0 ≤ h) (h23 : h ≤ 23) (m0 : 0 ≤ m) (m59 : m ≤ 59)
    (hj1 : -J ≤ j) (_hj2 : j ≤ J) :
    (now : Int) - J * 60000000 ≤ nextFire now h.toNat m.toNat j
    ∧ nextFire now h.toNat m.toNat j - j * 60000000
        = (preJitter now h.toNat m.toNat : Int)
    ∧ preJitter now h.toNat m.toNat % usPerDay
        = (h.toNat * 3600 + m.toNat * 60) * 1000000
    ∧ (preJitter now h.toNat m.toNat / usPerDay = now / usPerDay
       ∨ preJitter now h.toNat m.toNat / usPerDay = now / usPerDay + 1) := by
  unfold nextFire preJitter baseInstant usPerDay
  split <;> omega

/-- Claim C2 witness: "08:30" at now = 13:00:00 of day 0, jitter draw 0,
JITTER_MINUTES = 15. -/
theorem c2_next_fire_bounds_witness :
    ((46800000000 : Nat) : Int) - 15 * 60000000 ≤ nextFire 46800000000 8 30 0
    ∧ nextFire 46800000000 8 30 0 - 0 * 60000000
        = (preJitter 46800000000 8 30 : Int)
    ∧ preJitter 46800000000 8 30 % usPerDay = (8 * 3600 + 30 * 60) * 1000000
    ∧ (preJitter 46800000000 8 30 / usPerDay = 46800000000 / usPerDay
       ∨ preJitter 46800000000 8 30 / usPerDay = 46800000000 / usPerDay + 1) :=
  c2_next_fire_bounds "08:30" 8 30 46800000000 0 15 (by decide) (by decide)
    (by decide) (by decide) (by decide) (by decide) (by decide)

/-- Claim C3 (code bug): the slot "10:99" splits and int-parses fine, so it
escapes the try/except of src/scheduler/main.py:69-73, and
`datetime.now().replace(minute=99)` then raises ValueError outside any
handler: the cycle crashes (flag `true`) right after the three inventory
fetches, and the remaining valid slot "08:00" of the same account cycle is
never processed (no caption fetch, no variant request, no publish), although
the environment is healthy. -/
theorem c3_minute_out_of_range_crashes_cycle :
    pyParseTime "10:99" = some (10, 99)
    ∧ schedule_for_account envC3 acctIG 3
        = ([Event.fetchSchedules "a1", Event.fetchLibraries,
            Event.fetchItems "l1"], true)
    ∧ publishes (schedule_for_account envC3 acctIG 3).1 = [] := by decide

/-- Claim C4: in a slot whose variant call fails, no publish request is made
(in particular the master asset URL is never sent to a publish adapter), the
exception is caught, and the loop continues with the remaining slots. -/
theorem c4_variant_failure_skips_publish (env : Env) (acct : Account)
    (tok : String) (items : List Item) (idx : Nat) (t : String)
    (ts : List String) (h m : Int)
    (hp : pyParseTime t = some (h, m))
    (h0 : 0 ≤ h) (h23 : h ≤ 23) (m0 : 0 ≤ m) (m59 : m ≤ 59)
    (hit : items ≠ []) (hv : env.variantOf idx = none) :
    publishes (processSlot env acct tok items idx t).1 = []
    ∧ (processSlot env acct tok items idx t).2 = false
    ∧ runSlots env acct tok items idx (t :: ts)
        = ((processSlot env acct tok items idx t).1
            ++ (runSlots env acct tok items (idx + 1) ts).1,
           (runSlots env acct tok items (idx + 1) ts).2) := by
  have hlen : 0 < items.length := List.length_pos.mpr hit
  have hklt : env.itemChoice idx % items.length < items.length :=
    Nat.mod_lt _ hlen
  obtain ⟨item, hg⟩ : ∃ it,
      items.get? (env.itemChoice idx % items.length) = some it := by
    rw [List.get?_eq_get hklt]
    exact ⟨_, rfl⟩
  have hps : processSlot env acct tok items idx t
      = ([Event.fetchCaptions item.id,
          Event.variantRequest item.master_url acct.network], false) := by
    unfold processSlot
    rw [hp]
    simp only []
    rw [if_neg (by omega), hg, hv]
  refine ⟨by rw [hps]; rfl, by rw [hps], ?_⟩
  conv_lhs => rw [runSlots]
  rw [hps]

/-- Claim C4 witness: slot "08:00" of a healthy account whose variant call
fails emits no publish, does not crash, and the loop equation holds. -/
theorem c4_variant_failure_skips_publish_witness :
    publishes (processSlot envFail acctIG "tok" [itemOK] 0 "08:00").1 = []
    ∧ (processSlot envFail acctIG "tok" [itemOK] 0 "08:00").2 = false
    ∧ runSlots envFail acctIG "tok" [itemOK] 0 ["08:00"]
        = ((processSlot envFail acctIG "tok" [itemOK] 0 "08:00").1
            ++ (runSlots envFail acctIG "tok" [itemOK] 1 []).1,
           (runSlots envFail acctIG "tok" [itemOK] 1 []).2) :=
  c4_variant_failure_skips_publish envFail acctIG "tok" [itemOK] 0 "08:00"
    [] 8 0 (by decide) (by decide) (by decide) (by decide) (by decide)
    (by decide) rfl

/-- Claim C5: the effective post-time list is the concatenation of all
schedules' post_times in listed order truncated to the first POSTS_PER_DAY
entries; with posts_per_day = 3 and contributed times
["08:00", "12:00", "18:00", "22:00"], the first three survive and "22:00" is
dropped. -/
theorem c5_effective_times_concat_truncate :
    (∀ (scheds : List Schedule) (ppd : Nat),
      effective_times scheds ppd
        = ((scheds.map Schedule.post_times).flatten).take ppd)
    ∧ effective_times
        [⟨"s1", "a1", ["08:00", "12:00"]⟩, ⟨"s2", "a1", ["18:00", "22:00"]⟩] 3
        = ["08:00", "12:00", "18:00"]
    ∧ "22:00" ∉ effective_times
        [⟨"s1", "a1", ["08:00", "12:00"]⟩, ⟨"s2", "a1", ["18:00", "22:00"]⟩] 3 := by
  refine ⟨fun scheds ppd => ?_, by decide, by decide⟩
  simp [effective_times, times_strs_loop_eq]

/-- Claim C6: an account whose access token is absent or empty is dismissed
at the credential check: the cycle performs zero inventory fetches, zero
variant requests and zero publish calls (the trace is empty) and does not
crash. -/
theorem c6_no_token_no_calls (env : Env) (acct : Account) (ppd : Nat)
    (h : acct.access_token = none ∨ acct.access_token = some "") :
    schedule_for_account env acct ppd = ([], false) := by
  rcases h with h | h <;> simp [schedule_for_account, h]

/-- Claim C6 witness: a tokenless account in a healthy environment produces
an empty trace. -/
theorem c6_no_token_no_calls_witness :
    schedule_for_account envOK ⟨"a1", some "instagram", "u1", none⟩ 3
      = ([], false) :=
  c6_no_token_no_calls envOK ⟨"a1", some "instagram", "u1", none⟩ 3
    (Or.inl rfl)

/-- Claim C7 counterexample: at now = day 0, 08:00:00.000000 exactly, the
base instant for input 08:00 EQUALS now, and the code (strict `<` at
src/scheduler/main.py:77) does NOT advance it: the pre-jitter instant stays
at today 08:00 (same day as now), contradicting the claim that a base
instant ≤ now is advanced to tomorrow. -/
theorem c7_equal_base_not_advanced_cex :
    baseInstant 28800000000 8 0 = 28800000000
    ∧ preJitter 28800000000 8 0 = 28800000000
    ∧ preJitter 28800000000 8 0 ≠ baseInstant 28800000000 8 0 + usPerDay
    ∧ preJitter 28800000000 8 0 / usPerDay = 28800000000 / usPerDay := by
  decide

/-- Claim C7 as amended: the pre-jitter fire instant is advanced by exactly
one day when the base instant is STRICTLY before now, is left unchanged when
the base instant is ≥ now (in particular at exact equality), and is never
advanced by more than one day. -/
theorem c7_advance_rule_amended (now h m : Nat) (_hh : h ≤ 23)
    (_hm : m ≤ 59) :
    (baseInstant now h m < now →
      preJitter now h m = baseInstant now h m + usPerDay)
    ∧ (now ≤ baseInstant now h m → preJitter now h m = baseInstant now h m)
    ∧ preJitter now h m ≤ baseInstant now h m + usPerDay := by
  unfold preJitter; split <;> omega

/-- Claim C7 witness: input 08:30 at now = 13:00:00 of day 0. -/
theorem c7_advance_rule_witness :
    (baseInstant 46800000000 8 30 < 46800000000 →
      preJitter 46800000000 8 30 = baseInstant 46800000000 8 30 + usPerDay)
    ∧ (46800000000 ≤ baseInstant 46800000000 8 30 →
      preJitter 46800000000 8 30 = baseInstant 46800000000 8 30)
    ∧ preJitter 46800000000 8 30 ≤ baseInstant 46800000000 8 30 + usPerDay :=
  c7_advance_rule_amended 46800000000 8 30 (by decide) (by decide)

/-- Claim C8 counterexample: two requests carrying the SAME explicit seed
string "" and the same platform select different profiles, because Python's
`req.seed or uuid.uuid4().hex` treats the empty string as falsy and
substitutes the fresh per-call uuid: with the process hash `hashSum`, the
two fresh uuids shown yield profile indices 1 and 2. -/
theorem c8_empty_seed_cex :
    create_variant_profile hashSum "instagram" (some "")
        "00000000000000000000000000000000"
      ≠ create_variant_profile hashSum "instagram" (some "")
        "10000000000000000000000000000000" := by decide

/-- Claim C8 as amended: two variant requests carrying the same NON-EMPTY
explicit seed select the same transformation profile index regardless of the
platform and of the per-call fresh uuids — the seed-to-profile mapping is a
deterministic function of the (non-empty) seed under a fixed process hash. -/
theorem c8_seed_determinism_amended (pyhash : String → Int)
    (p1 p2 : String) (s : String) (hs : s ≠ "") (u1 u2 : String) :
    create_variant_profile pyhash p1 (some s) u1
      = create_variant_profile pyhash p2 (some s) u2 := by
  simp [create_variant_profile, hs]

/-- Claim C8 witness: seed "brand-seed" gives the same profile across two
calls with different platforms and different fresh uuids. -/
theorem c8_seed_determinism_witness :
    create_variant_profile hashSum "instagram" (some "brand-seed") "aaaa"
      = create_variant_profile hashSum "tiktok" (some "brand-seed") "bbbb" :=
  c8_seed_determinism_amended hashSum "instagram" "tiktok" "brand-seed"
    (by decide) "aaaa" "bbbb"

/-- Claim C9: content selection uses the first library of the fetched
sequence — only its items are fetched, every variant request in the cycle's
trace carries the master_url of one of exactly that library's items (the
random choice indexes into exactly that list) — and when that library has no
items the whole cycle stops right after the items fetch: no slot of the
cycle requests a variant or publishes. -/
theorem c9_first_library_selection (env : Env) (acct : Account) (ppd : Nat)
    (tok : String) (ht : acct.access_token = some tok) (hne : tok ≠ "")
    (sc : Schedule) (scs : List Schedule)
    (hs : env.schedulesOf acct.id = sc :: scs)
    (lib : Library) (libs : List Library)
    (hl : env.libraries = lib :: libs) :
    (env.itemsOf lib.id = [] →
      schedule_for_account env acct ppd
        = ([Event.fetchSchedules acct.id, Event.fetchLibraries,
            Event.fetchItems lib.id], false))
    ∧ ∀ u ∈ variantSources (schedule_for_account env acct ppd).1,
        u ∈ (env.itemsOf lib.id).map Item.master_url := by
  constructor
  · intro hi
    unfold schedule_for_account
    rw [ht]; dsimp only
    rw [if_neg hne, hs]; dsimp only
    rw [hl]; dsimp only
    rw [hi]
  · intro u hu
    unfold schedule_for_account at hu
    rw [ht] at hu; dsimp only at hu
    rw [if_neg hne, hs] at hu; dsimp only at hu
    rw [hl] at hu; dsimp only at hu
    cases hi : env.itemsOf lib.id with
    | nil =>
      rw [hi] at hu
      simp [variantSources] at hu
    | cons itm itail =>
      rw [hi] at hu
      dsimp only at hu
      rcases hrs : runSlots env acct tok (itm :: itail) 0
          (effective_times (sc :: scs) ppd) with ⟨evs, c⟩
      rw [hrs] at hu
      have hvr := variantSources_runSlots env acct tok (itm :: itail)
        (effective_times (sc :: scs) ppd) 0
      rw [hrs] at hvr
      rw [variantSources_append] at hu
      rw [show variantSources [Event.fetchSchedules acct.id,
            Event.fetchLibraries, Event.fetchItems lib.id] = [] from rfl] at hu
      rw [List.nil_append] at hu
      exact hvr u hu

/-- Claim C9 witness: the healthy concrete environment — the first (only)
library "l1" is used and every variant source belongs to its item list. -/
theorem c9_first_library_selection_witness :
    (envOK.itemsOf "l1" = [] →
      schedule_for_account envOK acctIG 3
        = ([Event.fetchSchedules "a1", Event.fetchLibraries,
            Event.fetchItems "l1"], false))
    ∧ ∀ u ∈ variantSources (schedule_for_account envOK acctIG 3).1,
        u ∈ (envOK.itemsOf "l1").map Item.master_url :=
  c9_first_library_selection envOK acctIG 3 "tok" rfl (by decide)
    ⟨"s1", "a1", ["08:00", "12:00"]⟩ [] rfl ⟨"l1", "Main"⟩ [] rfl

/-- Claim C10: the create-account response is identical for any two requests
differing only in access_token, its JSON object has no access_token key at
all, while the stored record keeps the token and the account-listing
response exposes it. -/
theorem c10_create_account_hides_token (accounts : List AccountRec)
    (newId n e hd : String) (t1 t2 : Option String) :
    (create_account accounts newId ⟨n, e, hd, t1⟩).2
      = (create_account accounts newId ⟨n, e, hd, t2⟩).2
    ∧ "access_token"
        ∉ ((create_account accounts newId ⟨n, e, hd, t1⟩).2.map Prod.fst)
    ∧ list_accounts (create_account accounts newId ⟨n, e, hd, t1⟩).1
      = list_accounts accounts
        ++ [[("id", some newId), ("network", some n),
             ("external_user_id", some e), ("handle", some hd),
             ("access_token", t1)]] := by
  refine ⟨rfl, ?_, ?_⟩
  · simp [create_account]
  · simp [create_account, list_accounts]

end RP
